import Mathlib

/-!
Verification development for the video concatenation module
(`services/v1/video/concatenate.py`).

The module builds ffmpeg filter graphs.  We embed the subset of the
ffmpeg-python object model that the module manipulates: input streams,
`.video` / `.audio` selection, `.filter(...)` applications, `ffmpeg.filter`
on two streams, `ffmpeg.concat`, and the `{'video': _, 'audio': _}` Python
dict that several transition builders return.  Python runtime errors that
can arise while the graph is being built (AttributeError when `.video` is
read off a dict, TypeError when `ffmpeg.concat` receives a non-stream,
ValueError raised explicitly by the module) are modelled with `Except`.

Probed file durations are an environment `env : String → ℚ` mapping a
filename to the duration `ffmpeg.probe` reports for it (files are assumed
probe-able; probing is delegated to the external engine).
-/

namespace ApiVid

/-- Value of a Python keyword argument passed to a filter node. -/
inductive KwVal where
  | str (s : String)
  | num (q : ℚ)
  deriving DecidableEq, Repr

/-- Keyword-argument dictionary of a filter node. -/
abbrev Kwargs := List (String × KwVal)

/-- Look up a numeric kwarg. -/
def Kwargs.num (args : Kwargs) (k : String) : Option ℚ :=
  match args.lookup k with
  | some (KwVal.num q) => some q
  | _ => none

/-- Look up a string kwarg. -/
def Kwargs.strArg (args : Kwargs) (k : String) : Option String :=
  match args.lookup k with
  | some (KwVal.str s) => some s
  | _ => none

/-- Stream selector used by the `.video` / `.audio` properties. -/
inductive Sel where
  | v
  | a
  deriving DecidableEq, Repr

/-- An ffmpeg-python stream object as built by this module:
`ffmpeg.input(file)`, a selected leg `stream['v']` / `stream['a']`,
a `.filter(name, **kwargs)` application, a two-input `ffmpeg.filter`
(used for `overlay` and `amix`), and `ffmpeg.concat(x, y, v=, a=)`. -/
inductive FStream where
  | input (filename : String)
  | select (s : FStream) (sel : Sel)
  | filter (s : FStream) (name : String) (args : Kwargs)
  | filter2 (x y : FStream) (name : String) (args : Kwargs)
  | concat2 (x y : FStream) (v a : Nat)
  deriving DecidableEq, Repr

/-- A Python value flowing through `video1` / `video2` / `result` in the
module: either an ffmpeg stream object or the `{'video': _, 'audio': _}`
dict returned by the crossfade / fade / wipe / slide builders. -/
inductive PyVal where
  | stream (s : FStream)
  | dict (video audio : FStream)
  deriving DecidableEq, Repr

/-- A Python exception raised while the graph is being built. -/
inductive PyErr where
  | attributeError (name : String)
  | typeError (msg : String)
  | valueError (msg : String)
  deriving DecidableEq, Repr

/-- Whether a stream already carries a selector (ffmpeg-python refuses to
select a leg of an already-selected stream). -/
def FStream.selected : FStream → Bool
  | .select _ _ => true
  | _ => false

/-- Python attribute access `x.video`: on a stream it is `self['v']`
(ValueError if a selector is already present); on a dict it raises
AttributeError, a dict has no such attribute. -/
def PyVal.video : PyVal → Except PyErr FStream
  | .stream s =>
      if s.selected then .error (.valueError "Stream already has a selector")
      else .ok (s.select .v)
  | .dict _ _ => .error (.attributeError "video")

/-- Python attribute access `x.audio`, analogous to `PyVal.video`. -/
def PyVal.audio : PyVal → Except PyErr FStream
  | .stream s =>
      if s.selected then .error (.valueError "Stream already has a selector")
      else .ok (s.select .a)
  | .dict _ _ => .error (.attributeError "audio")

/-- `ffmpeg.concat` (and `ffmpeg.output`) type-check their incoming
arguments: a dict is not a `FilterableStream` and raises TypeError. -/
def PyVal.asStream : PyVal → Except PyErr FStream
  | .stream s => .ok s
  | .dict _ _ => .error (.typeError "Expected incoming stream to be a FilterableStream")

/-- `input_stream.node.kwargs.get('filename')`: an input node stores its
filename kwarg; a selected leg shares its parent's node; filter and concat
nodes have no `filename` kwarg. -/
def FStream.filenameOf : FStream → Option String
  | .input f => some f
  | .select s _ => s.filenameOf
  | .filter _ _ _ => none
  | .filter2 _ _ _ _ => none
  | .concat2 _ _ _ _ => none

/-- `_get_video_duration` (lines 122-130): if the value has a `node` with a
`filename` kwarg the file is probed (the probe result is `env filename`),
otherwise the function silently returns `0.0`.  A dict has no `node`
attribute, so it also yields `0.0`. -/
def _get_video_duration (env : String → ℚ) : PyVal → ℚ
  | .stream s =>
      match s.filenameOf with
      | some f => env f
      | none => 0
  | .dict _ _ => 0

/-- Whether the duration resolver can see a probe-able filename in the
value: a stream whose input node carries a `filename` kwarg. -/
def PyVal.hasFilename : PyVal → Bool
  | .stream s => s.filenameOf.isSome
  | .dict _ _ => false

/-- A transition dict as received from the request: both keys optional,
read with `transition.get('type', 'none')` and
`float(transition.get('duration', 1.0))`. -/
structure Transition where
  type : Option String
  duration : Option ℚ
  deriving DecidableEq, Repr

/-- `transition.get('type', 'none')`. -/
def Transition.getType (t : Transition) : String := t.type.getD "none"

/-- `float(transition.get('duration', 1.0))`. -/
def Transition.getDuration (t : Transition) : ℚ := t.duration.getD 1

/-- `_crossfade_transition` (lines 148-177), translated statement by
statement; the trailing-`d` fade parameters, the `overlay`, the
`amix(inputs=2, duration='shortest')` and the two final concats are
recorded in the stream AST exactly as the source builds them. -/
def _crossfade_transition (env : String → ℚ) (video1 video2 : PyVal) (duration : ℚ) :
    Except PyErr PyVal := do
  let v1_duration := _get_video_duration env video1
  let offset := v1_duration - duration
  let v1 ← video1.video
  let v1_trimmed := v1.filter "trim" [("duration", KwVal.num v1_duration)]
  let v1_faded := v1_trimmed.filter "fade"
    [("type", KwVal.str "out"), ("start_time", KwVal.num offset),
     ("duration", KwVal.num duration)]
  let a1 ← video1.audio
  let a1_trimmed := a1.filter "atrim" [("duration", KwVal.num v1_duration)]
  let a1_faded := a1_trimmed.filter "afade"
    [("type", KwVal.str "out"), ("start_time", KwVal.num offset),
     ("duration", KwVal.num duration)]
  let v2 ← video2.video
  let v2_trimmed := v2.filter "trim"
    [("start_time", KwVal.num 0), ("duration", KwVal.num duration)]
  let v2_faded := v2_trimmed.filter "fade"
    [("type", KwVal.str "in"), ("start_time", KwVal.num 0),
     ("duration", KwVal.num duration)]
  let a2 ← video2.audio
  let a2_trimmed := a2.filter "atrim"
    [("start_time", KwVal.num 0), ("duration", KwVal.num duration)]
  let a2_faded := a2_trimmed.filter "afade"
    [("type", KwVal.str "in"), ("start_time", KwVal.num 0),
     ("duration", KwVal.num duration)]
  let v2b ← video2.video
  let v2_remaining := v2b.filter "trim" [("start_time", KwVal.num duration)]
  let a2b ← video2.audio
  let a2_remaining := a2b.filter "atrim" [("start_time", KwVal.num duration)]
  let v_overlay := FStream.filter2 v1_faded v2_faded "overlay" []
  let a_mix := FStream.filter2 a1_faded a2_faded "amix"
    [("inputs", KwVal.num 2), ("duration", KwVal.str "shortest")]
  let v_final := FStream.concat2 v_overlay v2_remaining 1 0
  let a_final := FStream.concat2 a_mix a2_remaining 0 1
  return PyVal.dict v_final a_final

/-- `_fade_transition` (lines 179-196): no trimming, a fade-out of length
`duration/2` starting at `v1_duration - duration/2` on clip A, a fade-in of
length `duration/2` at time 0 on clip B, then plain concats per track. -/
def _fade_transition (env : String → ℚ) (video1 video2 : PyVal) (duration : ℚ) :
    Except PyErr PyVal := do
  let v1_duration := _get_video_duration env video1
  let fade_start := v1_duration - duration / 2
  let v1 ← video1.video
  let v1_faded := v1.filter "fade"
    [("type", KwVal.str "out"), ("start_time", KwVal.num fade_start),
     ("duration", KwVal.num (duration / 2))]
  let a1 ← video1.audio
  let a1_faded := a1.filter "afade"
    [("type", KwVal.str "out"), ("start_time", KwVal.num fade_start),
     ("duration", KwVal.num (duration / 2))]
  let v2 ← video2.video
  let v2_faded := v2.filter "fade"
    [("type", KwVal.str "in"), ("start_time", KwVal.num 0),
     ("duration", KwVal.num (duration / 2))]
  let a2 ← video2.audio
  let a2_faded := a2.filter "afade"
    [("type", KwVal.str "in"), ("start_time", KwVal.num 0),
     ("duration", KwVal.num (duration / 2))]
  let v_out := FStream.concat2 v1_faded v2_faded 1 0
  let a_out := FStream.concat2 a1_faded a2_faded 0 1
  return PyVal.dict v_out a_out

/-- `_wipe_transition` (lines 198-205): degraded to a plain concat of the
whole incoming values per track (`ffmpeg.concat` type-checks its
arguments). -/
def _wipe_transition (video1 video2 : PyVal) (_duration : ℚ) :
    Except PyErr PyVal := do
  let x ← video1.asStream
  let y ← video2.asStream
  let v_out := FStream.concat2 x y 1 0
  let a_out := FStream.concat2 x y 0 1
  return PyVal.dict v_out a_out

/-- `_slide_transition` (lines 207-214): same degraded behaviour as wipe. -/
def _slide_transition (video1 video2 : PyVal) (_duration : ℚ) :
    Except PyErr PyVal := do
  let x ← video1.asStream
  let y ← video2.asStream
  let v_out := FStream.concat2 x y 1 0
  let a_out := FStream.concat2 x y 0 1
  return PyVal.dict v_out a_out

/-- `_apply_transition` (lines 132-146): dispatch on the transition type;
anything other than the four named kinds falls through to
`ffmpeg.concat(video1, video2, v=1, a=1)`. -/
def _apply_transition (env : String → ℚ) (video1 video2 : PyVal) (transition : Transition) :
    Except PyErr PyVal :=
  let transition_type := transition.getType
  let duration := transition.getDuration
  if transition_type = "crossfade" then
    _crossfade_transition env video1 video2 duration
  else if transition_type = "fade" then
    _fade_transition env video1 video2 duration
  else if transition_type = "wipe" then
    _wipe_transition video1 video2 duration
  else if transition_type = "slide" then
    _slide_transition video1 video2 duration
  else do
    let x ← video1.asStream
    let y ← video2.asStream
    return PyVal.stream (FStream.concat2 x y 1 1)

/-- The default transition dict `{'type': 'none', 'duration': 1.0}`
(lines 98 and 106). -/
def defaultTransition : Transition := Transition.mk (some "none") (some 1)

/-- The transition chosen for gap `i` (1-based) in the chain loop, lines
105-106: `min(i - 1, len(transitions) - 1)` if `transitions` is non-empty,
otherwise the default transition. -/
def selectTransition (transitions : List Transition) (i : Nat) : Transition :=
  match transitions with
  | [] => defaultTransition
  | _ :: _ =>
      transitions.getD (min (i - 1) (transitions.length - 1)) defaultTransition

/-- The loop of lines 104-108: `result := _apply_transition(result,
inputs[i], transition_i)` for each remaining input, `i` counting gaps from
1. -/
def chainLoop (env : String → ℚ) (transitions : List Transition) :
    PyVal → List PyVal → Nat → Except PyErr PyVal
  | result, [], _ => .ok result
  | result, x :: rest, i => do
      let r ← _apply_transition env result x (selectTransition transitions i)
      chainLoop env transitions r rest (i + 1)

/-- The declarative invocation handed to the external media engine. -/
inductive EngineCall where
  | concatDemux (listPath outputPath codec : String)
  | outputVA (video audio : FStream) (outputPath : String)
  | outputSingle (s : FStream) (outputPath : String)
  deriving DecidableEq, Repr

/-- `_concatenate_with_transitions` (lines 87-120): ValueError on fewer
than 2 inputs; a single `_apply_transition` for exactly two inputs (with
`transitions[0]` or the default); the chain loop otherwise; finally the
dict / plain-stream dispatch of lines 113-120 choosing how `ffmpeg.output`
is invoked. -/
def _concatenate_with_transitions (env : String → ℚ) (input_files : List String)
    (output_path : String) (transitions : List Transition) :
    Except PyErr EngineCall :=
  match input_files with
  | f1 :: f2 :: rest => do
      let i1 := PyVal.stream (FStream.input f1)
      let i2 := PyVal.stream (FStream.input f2)
      let output_streams ←
        if rest.isEmpty then
          _apply_transition env i1 i2
            (match transitions with
             | [] => defaultTransition
             | t :: _ => t)
        else
          chainLoop env transitions i1
            (i2 :: rest.map fun f => PyVal.stream (FStream.input f)) 1
      match output_streams with
      | .dict v a => pure (EngineCall.outputVA v a output_path)
      | .stream s => pure (EngineCall.outputSingle s output_path)
  | _ => .error (.valueError "At least 2 videos are required for transitions")

/-- A single quote character, used in the concat-list line format. -/
def squote : String := String.singleton (Char.ofNat 39)

/-- An observable file-system / engine event of one run. -/
inductive FsEvent where
  | write (path : String) (lines : List String)
  | engine (call : EngineCall)
  | remove (path : String)
  deriving DecidableEq, Repr

/-- `_concatenate_simple` (lines 68-85): write the concat-list file (one
`file '<absolute path>'` line per input), run the concat demuxer with
codec copy, remove the list file.  `abspath` models `os.path.abspath`;
`storage` models `LOCAL_STORAGE_PATH` with `/`-joining. -/
def _concatenate_simple (abspath : String → String) (storage : String)
    (input_files : List String) (output_path : String) (job_id : String) :
    List FsEvent :=
  let concat_file_path := storage ++ "/" ++ (job_id ++ "_concat_list.txt")
  [FsEvent.write concat_file_path
     (input_files.map fun f => "file " ++ squote ++ abspath f ++ squote),
   FsEvent.engine (EngineCall.concatDemux concat_file_path output_path "copy"),
   FsEvent.remove concat_file_path]

instance {ε α : Type} [DecidableEq ε] [DecidableEq α] : DecidableEq (Except ε α) := fun x y =>
  match x, y with
  | .ok a, .ok b =>
      if h : a = b then isTrue (by rw [h]) else isFalse (by simp [h])
  | .error e, .error e2 =>
      if h : e = e2 then isTrue (by rw [h]) else isFalse (by simp [h])
  | .ok _, .error _ => isFalse (by simp)
  | .error _, .ok _ => isFalse (by simp)

/-- The outcome of one `process_video_concatenate` run: the ordered
file-system / engine events, and either the returned output path or the
propagated Python exception. -/
structure RunOutcome where
  events : List FsEvent
  result : Except PyErr String
  deriving DecidableEq, Repr

/-- `process_video_concatenate` (lines 25-66), starting after the
downloads (fetching is the external collaborator; `input_files` are the
downloaded local paths).  `transitions and len(transitions) > 0` selects
the filter-graph path, otherwise the concat-demuxer path; on success the
input files are then removed (lines 53-55) and the output path returned;
an exception propagates unchanged (lines 64-66) and no cleanup runs.  The
external engine is assumed to succeed and produce the output file, so the
existence re-check of lines 60-61 passes. -/
def process_video_concatenate (env : String → ℚ) (abspath : String → String)
    (storage : String) (input_files : List String) (job_id : String)
    (transitions : Option (List Transition)) : RunOutcome :=
  let output_path := storage ++ "/" ++ (job_id ++ ".mp4")
  let useTransitions :=
    match transitions with
    | some ts => !ts.isEmpty
    | none => false
  if useTransitions then
    match _concatenate_with_transitions env input_files output_path
        (transitions.getD []) with
    | .ok call =>
        RunOutcome.mk ([FsEvent.engine call] ++ input_files.map FsEvent.remove)
          (.ok output_path)
    | .error e => RunOutcome.mk [] (.error e)
  else
    RunOutcome.mk
      (_concatenate_simple abspath storage input_files output_path job_id
        ++ input_files.map FsEvent.remove)
      (.ok output_path)

/-- Modelled from the spec: the external media engine's duration semantics
for `trim`/`atrim` (keep `[start_time, start_time + duration]` clamped to
the input), which the repository delegates to the engine (spec §1, §6);
only the `start_time` and `duration` options are used by this module. -/
def trimLen (L : ℚ) (start dur : Option ℚ) : ℚ :=
  let s := start.getD 0
  let e := match dur with
    | some d => s + d
    | none => L
  max 0 (min L e - s)

/-- Modelled from the spec: duration semantics of the external media
engine for the filters this module emits (spec §1, §4.3, §6): `trim` /
`atrim` clamp, `fade` / `afade` preserve length, `overlay` ends with its
main (first) input, `amix` with the `duration='shortest'` policy ends with
its shortest input (spec §4.3: the mixed segment length equals the
shortest operand) and with the default policy with its longest, `concat`
sums its inputs. -/
def FStream.dur (env : String → ℚ) : FStream → ℚ
  | .input f => env f
  | .select s _ => s.dur env
  | .filter s name args =>
      if name = "trim" ∨ name = "atrim" then
        trimLen (s.dur env) (args.num "start_time") (args.num "duration")
      else
        s.dur env
  | .filter2 x y name args =>
      if name = "overlay" then x.dur env
      else if name = "amix" then
        if args.strArg "duration" = some "shortest" then
          min (x.dur env) (y.dur env)
        else
          max (x.dur env) (y.dur env)
      else
        max (x.dur env) (y.dur env)
  | .concat2 x y _ _ => x.dur env + y.dur env

/-- Duration of the video track of a composition-stage value. -/
def PyVal.videoDur (env : String → ℚ) : PyVal → ℚ
  | .stream s => s.dur env
  | .dict v _ => v.dur env

/-- Duration of the audio track of a composition-stage value. -/
def PyVal.audioDur (env : String → ℚ) : PyVal → ℚ
  | .stream s => s.dur env
  | .dict _ a => a.dur env

/-- Lines 113-120: how the composed value is handed to `ffmpeg.output`. -/
def wrapOutput (output_path : String) : PyVal → EngineCall
  | .dict v a => EngineCall.outputVA v a output_path
  | .stream s => EngineCall.outputSingle s output_path

/-- Modelled from the spec (§4.4): the transition the spec's fold picks at
gap `i`, `transitions[min(i-1, len(transitions)-1)]` if `transitions` is
non-empty, else the default `{kind: none, duration: 1.0}`. -/
def specTransitionFor (transitions : List Transition) (i : Nat) : Transition :=
  if transitions.isEmpty then defaultTransition
  else transitions.getD (min (i - 1) (transitions.length - 1)) defaultTransition

/-- Modelled from the spec (§4.4): the fold
`result := build(result, clips[i], transition_i)` over the remaining
clips, gaps counted from 1. -/
def specComposeLoop (env : String → ℚ) (transitions : List Transition) :
    PyVal → List PyVal → Nat → Except PyErr PyVal
  | result, [], _ => .ok result
  | result, c :: rest, i => do
      let r ← _apply_transition env result c (specTransitionFor transitions i)
      specComposeLoop env transitions r rest (i + 1)

/-- Modelled from the spec (§4.4): the chain composer contract —
`result := clips[0]` then the fold over `clips[1..]`; fails with
InsufficientInputs on fewer than 2 clips. -/
def spec_compose (env : String → ℚ) (clips : List PyVal)
    (transitions : List Transition) : Except PyErr PyVal :=
  match clips with
  | c1 :: c2 :: rest => specComposeLoop env transitions c1 (c2 :: rest) 1
  | _ => .error (.valueError "InsufficientInputs")

/-- A concrete probe environment for closed instances: file `a` lasts
10 seconds, file `b` 8 seconds, anything else 5 seconds. -/
def envA : String → ℚ := fun f => if f = "a" then 10 else if f = "b" then 8 else 5

end ApiVid

namespace ApiVid

/-- The exact graph the crossfade builder constructs on two file inputs:
clip A is trimmed to its full probed duration and faded (it is never split
into a head and a trailing segment), clip B is split into a faded head of
length `d` and a remainder, the overlay takes the whole of A as its main
input, and the audio mix carries the `duration='shortest'` policy. -/
theorem crossfade_builds (env : String → ℚ) (fa fb : String) (d : ℚ) :
    _crossfade_transition env (PyVal.stream (FStream.input fa))
      (PyVal.stream (FStream.input fb)) d
    = Except.ok (PyVal.dict
        (FStream.concat2
          (FStream.filter2
            (FStream.filter (FStream.filter (FStream.select (FStream.input fa) Sel.v)
              "trim" [("duration", KwVal.num (env fa))])
              "fade" [("type", KwVal.str "out"), ("start_time", KwVal.num (env fa - d)),
                      ("duration", KwVal.num d)])
            (FStream.filter (FStream.filter (FStream.select (FStream.input fb) Sel.v)
              "trim" [("start_time", KwVal.num 0), ("duration", KwVal.num d)])
              "fade" [("type", KwVal.str "in"), ("start_time", KwVal.num 0),
                      ("duration", KwVal.num d)])
            "overlay" [])
          (FStream.filter (FStream.select (FStream.input fb) Sel.v)
            "trim" [("start_time", KwVal.num d)])
          1 0)
        (FStream.concat2
          (FStream.filter2
            (FStream.filter (FStream.filter (FStream.select (FStream.input fa) Sel.a)
              "atrim" [("duration", KwVal.num (env fa))])
              "afade" [("type", KwVal.str "out"), ("start_time", KwVal.num (env fa - d)),
                       ("duration", KwVal.num d)])
            (FStream.filter (FStream.filter (FStream.select (FStream.input fb) Sel.a)
              "atrim" [("start_time", KwVal.num 0), ("duration", KwVal.num d)])
              "afade" [("type", KwVal.str "in"), ("start_time", KwVal.num 0),
                       ("duration", KwVal.num d)])
            "amix" [("inputs", KwVal.num 2), ("duration", KwVal.str "shortest")])
          (FStream.filter (FStream.select (FStream.input fb) Sel.a)
            "atrim" [("start_time", KwVal.num d)])
          0 1)) := rfl

/-- Duration of an input leg. -/
theorem dur_input (env : String → ℚ) (f : String) :
    (FStream.input f).dur env = env f := rfl

/-- Duration of a selected leg. -/
theorem dur_select (env : String → ℚ) (s : FStream) (k : Sel) :
    (FStream.select s k).dur env = s.dur env := rfl

/-- A video fade preserves its input duration. -/
theorem dur_fade (env : String → ℚ) (s : FStream) (args : Kwargs) :
    (FStream.filter s "fade" args).dur env = s.dur env := rfl

/-- An audio fade preserves its input duration. -/
theorem dur_afade (env : String → ℚ) (s : FStream) (args : Kwargs) :
    (FStream.filter s "afade" args).dur env = s.dur env := rfl

/-- Duration of a trim by duration only. -/
theorem dur_trim_durOnly (env : String → ℚ) (s : FStream) (q : ℚ) :
    (FStream.filter s "trim" [("duration", KwVal.num q)]).dur env
      = trimLen (s.dur env) none (some q) := rfl

/-- Duration of an audio trim by duration only. -/
theorem dur_atrim_durOnly (env : String → ℚ) (s : FStream) (q : ℚ) :
    (FStream.filter s "atrim" [("duration", KwVal.num q)]).dur env
      = trimLen (s.dur env) none (some q) := rfl

/-- Duration of a trim with a start time and a duration. -/
theorem dur_trim_startDur (env : String → ℚ) (s : FStream) (q d : ℚ) :
    (FStream.filter s "trim" [("start_time", KwVal.num q),
      ("duration", KwVal.num d)]).dur env
      = trimLen (s.dur env) (some q) (some d) := rfl

/-- Duration of an audio trim with a start time and a duration. -/
theorem dur_atrim_startDur (env : String → ℚ) (s : FStream) (q d : ℚ) :
    (FStream.filter s "atrim" [("start_time", KwVal.num q),
      ("duration", KwVal.num d)]).dur env
      = trimLen (s.dur env) (some q) (some d) := rfl

/-- Duration of a trim by start time only. -/
theorem dur_trim_startOnly (env : String → ℚ) (s : FStream) (q : ℚ) :
    (FStream.filter s "trim" [("start_time", KwVal.num q)]).dur env
      = trimLen (s.dur env) (some q) none := rfl

/-- Duration of an audio trim by start time only. -/
theorem dur_atrim_startOnly (env : String → ℚ) (s : FStream) (q : ℚ) :
    (FStream.filter s "atrim" [("start_time", KwVal.num q)]).dur env
      = trimLen (s.dur env) (some q) none := rfl

/-- An overlay ends with its main (first) input. -/
theorem dur_overlay (env : String → ℚ) (x y : FStream) (args : Kwargs) :
    (FStream.filter2 x y "overlay" args).dur env = x.dur env := rfl

/-- The shortest-policy audio mix ends with its shortest input. -/
theorem dur_amix_shortest (env : String → ℚ) (x y : FStream) :
    (FStream.filter2 x y "amix"
      [("inputs", KwVal.num 2), ("duration", KwVal.str "shortest")]).dur env
      = min (x.dur env) (y.dur env) := rfl

/-- A concat node sums the durations of its inputs. -/
theorem dur_concat2 (env : String → ℚ) (x y : FStream) (v a : Nat) :
    (FStream.concat2 x y v a).dur env = x.dur env + y.dur env := rfl

/-- Trimming a non-negative-length stream to its own length keeps it. -/
theorem trimLen_self (L : ℚ) (h0 : 0 ≤ L) : trimLen L none (some L) = L := by
  show max 0 (min L (0 + L) - 0) = L
  rw [zero_add, min_self, sub_zero, max_eq_right h0]

/-- Trimming the first `d ≤ L` seconds yields `d`. -/
theorem trimLen_head (L d : ℚ) (h2 : 0 ≤ d) (h3 : d ≤ L) :
    trimLen L (some 0) (some d) = d := by
  show max 0 (min L (0 + d) - 0) = d
  rw [zero_add, sub_zero, min_eq_right h3, max_eq_right h2]

/-- Trimming from `d ≤ L` onward yields the remainder `L - d`. -/
theorem trimLen_tail (L d : ℚ) (h3 : d ≤ L) :
    trimLen L (some d) none = L - d := by
  show max 0 (min L L - d) = L - d
  rw [min_self, max_eq_right (sub_nonneg.mpr h3)]

/-- Track durations of the crossfade result on two file inputs with
`0 ≤ d ≤ min(durA, durB)`: the video track totals
`durA + (durB - d)`, but the audio track totals only `d + (durB - d)`
(that is, `durB`): the shortest-policy mix is `d` seconds long and the audio
head of clip A is never concatenated back. -/
theorem crossfade_track_durations (env : String → ℚ) (fa fb : String) (d : ℚ)
    (h0 : 0 ≤ env fa) (h1 : d ≤ env fa) (h2 : 0 ≤ d) (h3 : d ≤ env fb) :
    Except.map (fun r => (PyVal.videoDur env r, PyVal.audioDur env r))
      (_crossfade_transition env (PyVal.stream (FStream.input fa))
        (PyVal.stream (FStream.input fb)) d)
      = Except.ok (env fa + (env fb - d), d + (env fb - d)) := by
  rw [crossfade_builds]
  show Except.ok _ = _
  simp only [Except.map, PyVal.videoDur, PyVal.audioDur, dur_concat2, dur_overlay,
    dur_amix_shortest, dur_fade, dur_afade, dur_trim_durOnly, dur_atrim_durOnly,
    dur_trim_startDur, dur_atrim_startDur, dur_trim_startOnly, dur_atrim_startOnly,
    dur_select, dur_input]
  rw [trimLen_self (env fa) h0, trimLen_head (env fb) d h2 h3,
    trimLen_tail (env fb) d h3, min_eq_right h1]

/-- C1: for clips with probed durations 10 and 8 and crossfade duration 2
(so `0 < d ≤ min(durA, durB)` holds), the claim says both tracks of the
built pair last `10 + 8 - 2 = 16` seconds.  Evaluating the builder: the
video track does total 16, but the audio track totals 8 — the
`amix(duration='shortest')` mix of the full-length clip-A audio with the
2-second clip-B head is truncated to 2 seconds and the audio head of clip A is
never re-attached, so the audio track of the pair is 2 + (8 - 2) = 8 seconds. -/
theorem c1_crossfade_audio_track_is_not_shortened_sum :
    Except.map (fun r => (PyVal.videoDur envA r, PyVal.audioDur envA r))
      (_crossfade_transition envA (PyVal.stream (FStream.input "a"))
        (PyVal.stream (FStream.input "b")) 2)
      = Except.ok ((16 : ℚ), (8 : ℚ)) := by
  have ha : envA "a" = 10 := rfl
  have hb : envA "b" = 8 := rfl
  rw [crossfade_track_durations envA "a" "b" 2 (by rw [ha]; norm_num)
    (by rw [ha]; norm_num) (by norm_num) (by rw [hb]; norm_num)]
  rw [ha, hb]
  norm_num

/-- C2 counterexample: a crossfade transition with duration `-1 ≤ 0`
applied to two file inputs does not fail at all — the builder returns a
stream pair, there is no InvalidTransition validation in the module. -/
theorem c2_counterexample_negative_duration_accepted :
    (_apply_transition envA (PyVal.stream (FStream.input "a"))
      (PyVal.stream (FStream.input "b"))
      (Transition.mk (some "crossfade") (some (-1)))).isOk = true := by
  rfl

/-- C2 (amended): the pairwise transition builder performs no duration
validation whatsoever: for every transition spec — any kind string and
any duration, including durations ≤ 0 and crossfade durations exceeding
either input's probed duration — applied to two file-input streams it
returns a stream pair instead of failing. -/
theorem c2_builder_never_validates_duration (env : String → ℚ) (fa fb : String)
    (t : Transition) :
    (_apply_transition env (PyVal.stream (FStream.input fa))
      (PyVal.stream (FStream.input fb)) t).isOk = true := by
  unfold _apply_transition
  by_cases h1 : t.getType = "crossfade"
  · simp only [h1, if_pos]; rfl
  · by_cases h2 : t.getType = "fade"
    · simp only [h1, h2, if_neg, if_pos]; rfl
    · by_cases h3 : t.getType = "wipe"
      · simp only [h1, h2, h3, if_neg, if_pos]; rfl
      · by_cases h4 : t.getType = "slide"
        · simp only [h1, h2, h3, h4, if_neg, if_pos]; rfl
        · simp only [h1, h2, h3, h4, if_neg]; rfl

/-- C4: when the transitions argument is absent or the empty list, the
planner takes the copy-mode concat path regardless of clip count
(including a single clip): the events are exactly the concat-list write
with one `file '<absolute path>'` line per input, one concat-demuxer
engine invocation with codec copy (no filter graph), the list-file
removal, then the input removals, and the run returns the output path. -/
theorem c4_empty_transitions_always_concat_plan (env : String → ℚ)
    (abspath : String → String) (storage job : String) (files : List String)
    (tr : Option (List Transition)) (h : tr.getD [] = []) :
    (process_video_concatenate env abspath storage files job tr).events
      = [FsEvent.write (storage ++ "/" ++ (job ++ "_concat_list.txt"))
           (files.map fun f => "file " ++ squote ++ abspath f ++ squote),
         FsEvent.engine (EngineCall.concatDemux
           (storage ++ "/" ++ (job ++ "_concat_list.txt"))
           (storage ++ "/" ++ (job ++ ".mp4")) "copy"),
         FsEvent.remove (storage ++ "/" ++ (job ++ "_concat_list.txt"))]
        ++ files.map FsEvent.remove
    ∧ (process_video_concatenate env abspath storage files job tr).result
        = Except.ok (storage ++ "/" ++ (job ++ ".mp4")) := by
  cases tr with
  | none => exact ⟨rfl, rfl⟩
  | some ts =>
      simp only [Option.getD] at h
      subst h
      exact ⟨rfl, rfl⟩

/-- C4 witness: a single clip with transitions absent. -/
theorem c4_witness :
    (Option.getD (none : Option (List Transition)) [] = [])
    ∧ ((process_video_concatenate envA id "/tmp" ["x"] "job" none).events
        = [FsEvent.write ("/tmp" ++ "/" ++ ("job" ++ "_concat_list.txt"))
             (["x"].map fun f => "file " ++ squote ++ id f ++ squote),
           FsEvent.engine (EngineCall.concatDemux
             ("/tmp" ++ "/" ++ ("job" ++ "_concat_list.txt"))
             ("/tmp" ++ "/" ++ ("job" ++ ".mp4")) "copy"),
           FsEvent.remove ("/tmp" ++ "/" ++ ("job" ++ "_concat_list.txt"))]
          ++ ["x"].map FsEvent.remove
       ∧ (process_video_concatenate envA id "/tmp" ["x"] "job" none).result
          = Except.ok ("/tmp" ++ "/" ++ ("job" ++ ".mp4"))) :=
  ⟨rfl, c4_empty_transitions_always_concat_plan envA id "/tmp" "job" ["x"] none rfl⟩

/-- C9: the duration resolver returns exactly 0 instead of failing for
every value that does not expose a filename on its input node: any stream
not built directly from a file input (such as the accumulated hard-cut
result of a previous transition step) and any `{'video','audio'}` dict. -/
theorem c9_resolver_returns_zero_without_filename (env : String → ℚ)
    (s : FStream) (hs : s.filenameOf = none) (va aa : FStream) :
    _get_video_duration env (PyVal.stream s) = 0
    ∧ _get_video_duration env (PyVal.dict va aa) = 0 := by
  constructor
  · simp [_get_video_duration, hs]
  · rfl

/-- C9 witness: the accumulated result of a previous hard-cut step (an
`ffmpeg.concat` node) has no filename and resolves to duration 0, as does
a dict. -/
theorem c9_witness :
    (FStream.concat2 (FStream.input "a") (FStream.input "b") 1 1).filenameOf = none
    ∧ (_get_video_duration envA
        (PyVal.stream (FStream.concat2 (FStream.input "a") (FStream.input "b") 1 1)) = 0
      ∧ _get_video_duration envA
          (PyVal.dict (FStream.input "a") (FStream.input "b")) = 0) :=
  ⟨rfl, c9_resolver_returns_zero_without_filename envA
    (FStream.concat2 (FStream.input "a") (FStream.input "b") 1 1) rfl
    (FStream.input "a") (FStream.input "b")⟩

/-- C5: the fade-to-black builder fades out only the last `d/2` seconds of
clip A (a fade-out of length `d/2` starting at `durA - d/2`), fades in only
the first `d/2` seconds of clip B (a fade-in of length `d/2` at time 0),
hard-concatenates the two full clips per track with no overlay node, and
both the video and the audio track of the result total `durA + durB` — no
shortening, unlike crossfade. -/
theorem c5_fade_keeps_total_duration (env : String → ℚ) (fa fb : String) (d : ℚ)
    (hd : 0 < d) :
    _fade_transition env (PyVal.stream (FStream.input fa))
      (PyVal.stream (FStream.input fb)) d
      = Except.ok (PyVal.dict
          (FStream.concat2
            (FStream.filter (FStream.select (FStream.input fa) Sel.v) "fade"
              [("type", KwVal.str "out"), ("start_time", KwVal.num (env fa - d / 2)),
               ("duration", KwVal.num (d / 2))])
            (FStream.filter (FStream.select (FStream.input fb) Sel.v) "fade"
              [("type", KwVal.str "in"), ("start_time", KwVal.num 0),
               ("duration", KwVal.num (d / 2))]) 1 0)
          (FStream.concat2
            (FStream.filter (FStream.select (FStream.input fa) Sel.a) "afade"
              [("type", KwVal.str "out"), ("start_time", KwVal.num (env fa - d / 2)),
               ("duration", KwVal.num (d / 2))])
            (FStream.filter (FStream.select (FStream.input fb) Sel.a) "afade"
              [("type", KwVal.str "in"), ("start_time", KwVal.num 0),
               ("duration", KwVal.num (d / 2))]) 0 1))
    ∧ Except.map (fun r => (PyVal.videoDur env r, PyVal.audioDur env r))
        (_fade_transition env (PyVal.stream (FStream.input fa))
          (PyVal.stream (FStream.input fb)) d)
        = Except.ok (env fa + env fb, env fa + env fb) :=
  ⟨rfl, rfl⟩

/-- C5 witness: the fade builder at probed durations 10 and 8 with d = 1. -/
theorem c5_witness :
    (0 : ℚ) < 1
    ∧ (_fade_transition envA (PyVal.stream (FStream.input "a"))
        (PyVal.stream (FStream.input "b")) 1
        = Except.ok (PyVal.dict
            (FStream.concat2
              (FStream.filter (FStream.select (FStream.input "a") Sel.v) "fade"
                [("type", KwVal.str "out"),
                 ("start_time", KwVal.num (envA "a" - 1 / 2)),
                 ("duration", KwVal.num (1 / 2))])
              (FStream.filter (FStream.select (FStream.input "b") Sel.v) "fade"
                [("type", KwVal.str "in"), ("start_time", KwVal.num 0),
                 ("duration", KwVal.num (1 / 2))]) 1 0)
            (FStream.concat2
              (FStream.filter (FStream.select (FStream.input "a") Sel.a) "afade"
                [("type", KwVal.str "out"),
                 ("start_time", KwVal.num (envA "a" - 1 / 2)),
                 ("duration", KwVal.num (1 / 2))])
              (FStream.filter (FStream.select (FStream.input "b") Sel.a) "afade"
                [("type", KwVal.str "in"), ("start_time", KwVal.num 0),
                 ("duration", KwVal.num (1 / 2))]) 0 1))
      ∧ Except.map (fun r => (PyVal.videoDur envA r, PyVal.audioDur envA r))
          (_fade_transition envA (PyVal.stream (FStream.input "a"))
            (PyVal.stream (FStream.input "b")) 1)
          = Except.ok (envA "a" + envA "b", envA "a" + envA "b")) :=
  ⟨by norm_num, c5_fade_keeps_total_duration envA "a" "b" 1 (by norm_num)⟩

/-- C6: with a non-empty transitions list and fewer than 2 input clips the
run fails with the InsufficientInputs ValueError; no plan is produced and
the external engine is never invoked (the event trace is empty). -/
theorem c6_insufficient_inputs_error (env : String → ℚ) (abspath : String → String)
    (storage job : String) (files : List String) (ts : List Transition)
    (hts : ts ≠ []) (hfew : files.length < 2) :
    process_video_concatenate env abspath storage files job (some ts)
      = RunOutcome.mk [] (Except.error (PyErr.valueError
          "At least 2 videos are required for transitions")) := by
  cases ts with
  | nil => exact absurd rfl hts
  | cons t ts2 =>
    cases files with
    | nil => rfl
    | cons f fs =>
      cases fs with
      | nil => rfl
      | cons g gs =>
          simp only [List.length_cons] at hfew
          omega

/-- C6 witness: one clip with one transition. -/
theorem c6_witness :
    ([defaultTransition] ≠ ([] : List Transition))
    ∧ (["a"].length < 2)
    ∧ process_video_concatenate envA id "/tmp" ["a"] "job" (some [defaultTransition])
        = RunOutcome.mk [] (Except.error (PyErr.valueError
            "At least 2 videos are required for transitions")) :=
  ⟨List.cons_ne_nil _ _, by decide,
    c6_insufficient_inputs_error envA id "/tmp" "job" ["a"] [defaultTransition]
      (List.cons_ne_nil _ _) (by decide)⟩

/-- C7: every transition kind that is not crossfade, fade, wipe or slide —
including "none", the empty string and unknown strings — degrades to the
hard cut `ffmpeg.concat(v1, v2, v=1, a=1)`; the builder never fails on two
file inputs, and the resulting single stream totals `durA + durB`. -/
theorem c7_unknown_kind_hard_cut (env : String → ℚ) (fa fb : String) (t : Transition)
    (hk : t.getType ∉ (["crossfade", "fade", "wipe", "slide"] : List String)) :
    _apply_transition env (PyVal.stream (FStream.input fa))
      (PyVal.stream (FStream.input fb)) t
      = Except.ok (PyVal.stream
          (FStream.concat2 (FStream.input fa) (FStream.input fb) 1 1))
    ∧ (FStream.concat2 (FStream.input fa) (FStream.input fb) 1 1).dur env
        = env fa + env fb := by
  simp only [List.mem_cons, List.not_mem_nil, or_false, not_or] at hk
  obtain ⟨h1, h2, h3, h4⟩ := hk
  refine ⟨?_, rfl⟩
  unfold _apply_transition
  simp only [h1, h2, h3, h4, if_false]
  rfl

/-- C7 witness: the unknown kind "bounce". -/
theorem c7_witness :
    ((Transition.mk (some "bounce") (some 1)).getType
        ∉ (["crossfade", "fade", "wipe", "slide"] : List String))
    ∧ (_apply_transition envA (PyVal.stream (FStream.input "a"))
        (PyVal.stream (FStream.input "b")) (Transition.mk (some "bounce") (some 1))
        = Except.ok (PyVal.stream
            (FStream.concat2 (FStream.input "a") (FStream.input "b") 1 1))
      ∧ (FStream.concat2 (FStream.input "a") (FStream.input "b") 1 1).dur envA
          = envA "a" + envA "b") :=
  ⟨by decide, c7_unknown_kind_hard_cut envA "a" "b"
    (Transition.mk (some "bounce") (some 1)) (by decide)⟩

/-- C8 counterexample: the core does delete its downloaded input files — a
no-transitions run over inputs in0 and in1 emits a remove event for in0
(lines 53-55 of the source), contradicting the claim that the core never
deletes them. -/
theorem c8_counterexample_core_deletes_inputs :
    FsEvent.remove "in0" ∈
      (process_video_concatenate envA id "/tmp" ["in0", "in1"] "job" none).events := by
  decide

/-- C8 (amended): the input files are consumed read-only during planning,
but cleanup is not left to an external collaborator: on every successful
run the core itself removes each downloaded input file (a remove event per
input appears in the trace); on a failed run nothing is removed. -/
theorem c8_success_removes_every_input (env : String → ℚ) (abspath : String → String)
    (storage job : String) (files : List String) (tr : Option (List Transition))
    (p f : String) (hf : f ∈ files)
    (hok : (process_video_concatenate env abspath storage files job tr).result
           = Except.ok p) :
    FsEvent.remove f
      ∈ (process_video_concatenate env abspath storage files job tr).events := by
  cases tr with
  | none => exact List.mem_append_right _ (List.mem_map_of_mem _ hf)
  | some ts =>
    cases ts with
    | nil => exact List.mem_append_right _ (List.mem_map_of_mem _ hf)
    | cons t ts2 =>
      have hred : process_video_concatenate env abspath storage files job
            (some (t :: ts2))
          = (match _concatenate_with_transitions env files
                (storage ++ "/" ++ (job ++ ".mp4")) (t :: ts2) with
             | .ok call =>
                 RunOutcome.mk ([FsEvent.engine call] ++ files.map FsEvent.remove)
                   (.ok (storage ++ "/" ++ (job ++ ".mp4")))
             | .error e => RunOutcome.mk [] (.error e)) := rfl
      rw [hred] at hok ⊢
      cases hcall : _concatenate_with_transitions env files
          (storage ++ "/" ++ (job ++ ".mp4")) (t :: ts2) with
      | ok call =>
          exact List.mem_append_right _ (List.mem_map_of_mem _ hf)
      | error e =>
          rw [hcall] at hok
          simp at hok

/-- C8 witness: on the successful two-input no-transitions run, the input
file in1 is removed by the core. -/
theorem c8_witness :
    FsEvent.remove "in1" ∈
      (process_video_concatenate envA id "/tmp" ["in0", "in1"] "job" none).events :=
  c8_success_removes_every_input envA id "/tmp" "job" ["in0", "in1"] none
    ("/tmp" ++ "/" ++ ("job" ++ ".mp4")) "in1" (by decide) rfl

/-- The index expression of lines 105-106 coincides with the selection
worded by the spec. -/
theorem selectTransition_eq_specTransitionFor (ts : List Transition) (i : Nat) :
    selectTransition ts i = specTransitionFor ts i := by
  cases ts <;> rfl

/-- The chain loop of the source is the fold worded by the spec. -/
theorem chainLoop_eq_specComposeLoop (env : String → ℚ) (ts : List Transition)
    (rest : List PyVal) : ∀ (r : PyVal) (i : Nat),
    chainLoop env ts r rest i = specComposeLoop env ts r rest i := by
  induction rest with
  | nil => intro r i; rfl
  | cons x xs ih =>
      intro r i
      simp only [chainLoop, specComposeLoop, selectTransition_eq_specTransitionFor]
      cases hE : _apply_transition env r x (specTransitionFor ts i) with
      | ok v => exact ih v (i + 1)
      | error e => rfl

/-- Unfolding the composer on at least three inputs: the chain loop runs
from gap 1 and the result is wrapped for `ffmpeg.output`. -/
theorem concat3_unfold (env : String → ℚ) (f1 f2 f3 : String) (rest : List String)
    (out : String) (ts : List Transition) :
    _concatenate_with_transitions env (f1 :: f2 :: f3 :: rest) out ts
      = Except.bind
          (chainLoop env ts (PyVal.stream (FStream.input f1))
            (PyVal.stream (FStream.input f2) :: PyVal.stream (FStream.input f3)
              :: rest.map fun f => PyVal.stream (FStream.input f)) 1)
          (fun output_streams =>
            match output_streams with
            | PyVal.dict v a => pure (EngineCall.outputVA v a out)
            | PyVal.stream s => pure (EngineCall.outputSingle s out)) := rfl

/-- C3: in a chain of `N ≥ 2` clips with a non-empty transitions list
shorter than the `N - 1` gaps, the transition applied at gap `i` (1-based)
is the one at index `min(i - 1, len(transitions) - 1)`; in particular every
gap from `len(transitions)` onward reuses the last supplied transition;
with an empty list the default `{type: none, duration: 1.0}` is used; and
the composer is exactly the fold worded by the spec. -/
theorem c3_transition_index_clamp (env : String → ℚ) (files : List String)
    (out : String) (ts : List Transition) (i : Nat)
    (hN : 2 ≤ files.length) (hts : ts ≠ []) (hlen : ts.length < files.length - 1)
    (hi : 1 ≤ i) :
    selectTransition ts i = ts.getD (min (i - 1) (ts.length - 1)) defaultTransition
    ∧ (ts.length ≤ i → selectTransition ts i = ts.getLast hts)
    ∧ selectTransition [] i = Transition.mk (some "none") (some 1)
    ∧ _concatenate_with_transitions env files out ts
        = Except.map (wrapOutput out)
            (spec_compose env (files.map fun f => PyVal.stream (FStream.input f)) ts) := by
  have hts1 : 0 < ts.length := List.length_pos.mpr hts
  refine ⟨?_, ?_, rfl, ?_⟩
  · cases ts with
    | nil => exact absurd rfl hts
    | cons t ts2 => rfl
  · intro hile
    cases ts with
    | nil => exact absurd rfl hts
    | cons t ts2 =>
        show (t :: ts2).getD (min (i - 1) ((t :: ts2).length - 1)) defaultTransition
          = (t :: ts2).getLast hts
        have hmin : min (i - 1) ((t :: ts2).length - 1) = (t :: ts2).length - 1 := by
          simp only [List.length_cons] at hile ⊢
          omega
        have hlt : (t :: ts2).length - 1 < (t :: ts2).length := by
          simp only [List.length_cons]
          omega
        rw [hmin, List.getD_eq_getElem?_getD, List.getElem?_eq_getElem hlt,
          Option.getD_some, List.getLast_eq_getElem]
  · cases files with
    | nil =>
        simp only [List.length_nil] at hN
        omega
    | cons f1 files1 =>
      cases files1 with
      | nil =>
          simp only [List.length_cons, List.length_nil] at hN
          omega
      | cons f2 files2 =>
        cases files2 with
        | nil =>
            simp only [List.length_cons, List.length_nil] at hlen
            omega
        | cons f3 rest =>
            rw [concat3_unfold]
            show _ = Except.map (wrapOutput out)
              (specComposeLoop env ts (PyVal.stream (FStream.input f1))
                (PyVal.stream (FStream.input f2) :: PyVal.stream (FStream.input f3)
                  :: rest.map fun f => PyVal.stream (FStream.input f)) 1)
            rw [chainLoop_eq_specComposeLoop]
            cases hE : specComposeLoop env ts (PyVal.stream (FStream.input f1))
                (PyVal.stream (FStream.input f2) :: PyVal.stream (FStream.input f3)
                  :: rest.map fun f => PyVal.stream (FStream.input f)) 1 with
            | ok r => cases r <;> rfl
            | error e => rfl

/-- C3 witness: four clips with a single crossfade transition; gap 3 reuses
it. -/
theorem c3_witness :
    selectTransition [Transition.mk (some "crossfade") (some 1)] 3
        = [Transition.mk (some "crossfade") (some 1)].getD
            (min (3 - 1) ([Transition.mk (some "crossfade") (some 1)].length - 1))
            defaultTransition
    ∧ ([Transition.mk (some "crossfade") (some 1)].length ≤ 3 →
        selectTransition [Transition.mk (some "crossfade") (some 1)] 3
          = [Transition.mk (some "crossfade") (some 1)].getLast
              (List.cons_ne_nil (Transition.mk (some "crossfade") (some 1)) []))
    ∧ selectTransition [] 3 = Transition.mk (some "none") (some 1)
    ∧ _concatenate_with_transitions envA ["a", "b", "c", "d"] "o"
          [Transition.mk (some "crossfade") (some 1)]
        = Except.map (wrapOutput "o")
            (spec_compose envA
              (["a", "b", "c", "d"].map fun f => PyVal.stream (FStream.input f))
              [Transition.mk (some "crossfade") (some 1)]) :=
  c3_transition_index_clamp envA ["a", "b", "c", "d"] "o"
    [Transition.mk (some "crossfade") (some 1)] 3 (by decide)
    (List.cons_ne_nil (Transition.mk (some "crossfade") (some 1)) [])
    (by decide) (by decide)

/-- Dispatch of `_apply_transition` on a crossfade-typed transition. -/
theorem apply_transition_crossfade (env : String → ℚ) (v1 v2 : PyVal)
    (t : Transition) (h : t.getType = "crossfade") :
    _apply_transition env v1 v2 t
      = _crossfade_transition env v1 v2 t.getDuration := by
  unfold _apply_transition
  rw [h]
  rfl

/-- Dispatch of `_apply_transition` on a fade-typed transition. -/
theorem apply_transition_fade (env : String → ℚ) (v1 v2 : PyVal)
    (t : Transition) (h : t.getType = "fade") :
    _apply_transition env v1 v2 t
      = _fade_transition env v1 v2 t.getDuration := by
  unfold _apply_transition
  rw [h]
  rfl

/-- Dispatch of `_apply_transition` on a wipe-typed transition. -/
theorem apply_transition_wipe (env : String → ℚ) (v1 v2 : PyVal)
    (t : Transition) (h : t.getType = "wipe") :
    _apply_transition env v1 v2 t
      = _wipe_transition v1 v2 t.getDuration := by
  unfold _apply_transition
  rw [h]
  rfl

/-- Dispatch of `_apply_transition` on a slide-typed transition. -/
theorem apply_transition_slide (env : String → ℚ) (v1 v2 : PyVal)
    (t : Transition) (h : t.getType = "slide") :
    _apply_transition env v1 v2 t
      = _slide_transition v1 v2 t.getDuration := by
  unfold _apply_transition
  rw [h]
  rfl

/-- On two file inputs, each of the four named transition kinds returns a
`{video, audio}` dict. -/
theorem apply_transition_file_dict (env : String → ℚ) (x y : String)
    (t : Transition)
    (ht : t.getType ∈ (["crossfade", "fade", "wipe", "slide"] : List String)) :
    ∃ v a, _apply_transition env (PyVal.stream (FStream.input x))
      (PyVal.stream (FStream.input y)) t = Except.ok (PyVal.dict v a) := by
  simp only [List.mem_cons, List.not_mem_nil, or_false] at ht
  rcases ht with h | h | h | h
  · rw [apply_transition_crossfade env _ _ t h]; exact ⟨_, _, rfl⟩
  · rw [apply_transition_fade env _ _ t h]; exact ⟨_, _, rfl⟩
  · rw [apply_transition_wipe env _ _ t h]; exact ⟨_, _, rfl⟩
  · rw [apply_transition_slide env _ _ t h]; exact ⟨_, _, rfl⟩

/-- Fed a `{video, audio}` dict as its first operand, each of the four
named transition kinds raises: crossfade and fade read `.video` off the
dict (AttributeError), wipe and slide hand the dict to `ffmpeg.concat`
(TypeError). -/
theorem apply_transition_dict_errors (env : String → ℚ) (v a : FStream)
    (x : PyVal) (t : Transition)
    (ht : t.getType ∈ (["crossfade", "fade", "wipe", "slide"] : List String)) :
    ∃ e, _apply_transition env (PyVal.dict v a) x t = Except.error e := by
  simp only [List.mem_cons, List.not_mem_nil, or_false] at ht
  rcases ht with h | h | h | h
  · rw [apply_transition_crossfade env _ _ t h]; exact ⟨_, rfl⟩
  · rw [apply_transition_fade env _ _ t h]; exact ⟨_, rfl⟩
  · rw [apply_transition_wipe env _ _ t h]; exact ⟨_, rfl⟩
  · rw [apply_transition_slide env _ _ t h]; exact ⟨_, rfl⟩

/-- C10 counterexample: three clips where the transition selected at the
second gap is crossfade, yet the chained composition succeeds rather than
failing — the first gap is a hard cut (type none), so the first fold step
returns a plain stream, not a dict. -/
theorem c10_counterexample_second_gap_crossfade_succeeds :
    (selectTransition [Transition.mk (some "none") (some 1),
        Transition.mk (some "crossfade") (some 1)] 2).getType = "crossfade"
    ∧ (_concatenate_with_transitions envA ["a", "b", "c"] "out.mp4"
        [Transition.mk (some "none") (some 1),
         Transition.mk (some "crossfade") (some 1)]).isOk = true :=
  ⟨rfl, rfl⟩

/-- C10 (amended): for `N ≥ 3` clips, when the transition kinds selected at
both the first and the second gap are among crossfade, fade, wipe and
slide, the first fold step returns a `{video, audio}` dict, and the second
builder invocation fails on that dict (attribute access `.video`/`.audio`
for crossfade and fade, the stream type check of `ffmpeg.concat` for wipe
and slide), so composition errors out before any plan is produced. -/
theorem c10_dict_result_breaks_chain (env : String → ℚ) (f1 f2 f3 : String)
    (rest : List String) (out : String) (ts : List Transition)
    (h1 : (selectTransition ts 1).getType
          ∈ (["crossfade", "fade", "wipe", "slide"] : List String))
    (h2 : (selectTransition ts 2).getType
          ∈ (["crossfade", "fade", "wipe", "slide"] : List String)) :
    (∃ v a, _apply_transition env (PyVal.stream (FStream.input f1))
        (PyVal.stream (FStream.input f2)) (selectTransition ts 1)
        = Except.ok (PyVal.dict v a))
    ∧ (_concatenate_with_transitions env (f1 :: f2 :: f3 :: rest) out ts).isOk
        = false := by
  obtain ⟨v, a, hstep1⟩ :=
    apply_transition_file_dict env f1 f2 (selectTransition ts 1) h1
  refine ⟨⟨v, a, hstep1⟩, ?_⟩
  obtain ⟨e, hstep2⟩ := apply_transition_dict_errors env v a
    (PyVal.stream (FStream.input f3)) (selectTransition ts 2) h2
  have hloop : chainLoop env ts (PyVal.stream (FStream.input f1))
      (PyVal.stream (FStream.input f2) :: PyVal.stream (FStream.input f3)
        :: rest.map fun f => PyVal.stream (FStream.input f)) 1
      = Except.error e := by
    simp only [chainLoop]
    rw [hstep1]
    show chainLoop env ts (PyVal.dict v a)
      (PyVal.stream (FStream.input f3)
        :: rest.map fun f => PyVal.stream (FStream.input f)) 2 = Except.error e
    simp only [chainLoop]
    rw [hstep2]
    rfl
  rw [concat3_unfold, hloop]
  rfl

/-- C10 witness: three clips with the single transition crossfade, which is
selected at both gaps. -/
theorem c10_witness :
    (∃ v a, _apply_transition envA (PyVal.stream (FStream.input "a"))
        (PyVal.stream (FStream.input "b"))
        (selectTransition [Transition.mk (some "crossfade") (some 1)] 1)
        = Except.ok (PyVal.dict v a))
    ∧ (_concatenate_with_transitions envA ["a", "b", "c"] "out.mp4"
        [Transition.mk (some "crossfade") (some 1)]).isOk = false :=
  c10_dict_result_breaks_chain envA "a" "b" "c" [] "out.mp4"
    [Transition.mk (some "crossfade") (some 1)] (by decide) (by decide)

end ApiVid

